import Mathlib

/-!
Verification of the VAPI webhook calendar service.

The repository is a small JavaScript service that receives calendar tool
calls from a voice agent, checks availability against Google Calendar and
books meetings.  This file gives a shallow embedding of the decision logic:

* `WebhookHandler` embeds `src/vapi-webhook-service/webhook-handler.js`
  (`parseDateTime`, `handleCheckAvailability`, `handleBookMeeting`);
* `CalendarService` embeds `src/vapi-webhook-service/calendar-service.js`
  (`refreshAccessToken`, `getValidAccessToken`, `getGoogleCalendarEvents`,
  `checkAvailability`, `createGoogleCalendarEvent`, `bookMeeting`);
* `ApiCalendar` embeds the duplicated serverless variant
  `src/api/vapi/calendar.js` (`getValidAccessToken`);
* `ToolHandler` embeds the tool-call handler variant (`calculateDuration`,
  identical in `src/unnamed/part_000` and `src/api/vapi/calendar.js`).

JavaScript instants (`Date` values) are embedded as epoch milliseconds of
type `Int`; the JavaScript `NaN` / `undefined` poison values are embedded
as `Option.none`, so a possibly-invalid instant or number is an
`Option Int` and a possibly-undefined string is an `Option String`.
Network effects (the OAuth token endpoint, the event-list fetch and the
event-create fetch) are embedded by passing the response each fetch would
observe in an explicit environment record, and the side effects a run
performs (database `$set` updates, token fetches, create calls) are
returned in an explicit effect record.
-/

/-- Embedding of the JavaScript `Number(s)` conversion for the string
shapes reachable in this code base (components of `split` on date and
time strings): the empty string converts to `0`, a string of decimal
digits converts to its value, and anything else converts to `NaN`
(embedded as `none`).  Fractional or signed literals also map to `none`;
no claim depends on their numeric value, and they take the same branch
as `NaN` in every comparison the code performs. -/
def parseDigits : List Char → Nat → Option Nat
  | [], acc => some acc
  | c :: cs, acc =>
    if c.isDigit then parseDigits cs (acc * 10 + (c.toNat - 48)) else none

/-- String-level `Number(s)` conversion built on `parseDigits`. -/
def jsNumber (s : String) : Option Int :=
  match s.data with
  | [] => some 0
  | l => (parseDigits l 0).map Int.ofNat

/-- Embedding of the JavaScript single-character `String.split`: splitting
an empty string yields `[""]`, separators at the ends yield empty pieces. -/
def splitChars (sep : Char) : List Char → List (List Char)
  | [] => [[]]
  | c :: cs =>
    let rest := splitChars sep cs
    if c == sep then [] :: rest
    else
      match rest with
      | r :: rs => (c :: r) :: rs
      | [] => [[c]]

/-- String-level wrapper for `splitChars`. -/
def jsSplit (s : String) (sep : Char) : List String :=
  (splitChars sep s.data).map (fun l => ⟨l⟩)

/-- Embedding of `Array.prototype[i]` / destructuring after
`.map(Number)`: an out-of-range index reads `undefined`, which (like
`NaN`) is embedded as `none`. -/
def getNum (parts : List (Option Int)) (i : Nat) : Option Int :=
  (parts.get? i).join

/-- Embedding of the JavaScript `String.includes(c)` test for a
single-character needle. -/
def charIn (c : Char) (s : String) : Bool :=
  s.data.any (fun d => d == c)

/-- List-level test that the first list is an initial segment of the
second, used to embed substring search. -/
def leadsWith : List Char → List Char → Bool
  | [], _ => true
  | _ :: _, [] => false
  | p :: ps, c :: cs => p == c && leadsWith ps cs

/-- List-level substring occurrence test. -/
def occursIn (pat : List Char) : List Char → Bool
  | [] => leadsWith pat []
  | c :: cs => leadsWith pat (c :: cs) || occursIn pat cs

/-- Embedding of the JavaScript `String.includes(pat)` substring test. -/
def strIncludes (s pat : String) : Bool :=
  occursIn pat.data s.data

/-- Embedding of `String.toLowerCase` for the characters in play. -/
def lowerStr (s : String) : String :=
  ⟨s.data.map Char.toLower⟩

/-- Whitespace predicate used by the `trim` embedding. -/
def isSpaceChar (c : Char) : Bool :=
  c == ' ' || c == '\t' || c == '\n' || c == '\r'

/-- Embedding of `String.trim`. -/
def jsTrim (s : String) : String :=
  ⟨((s.data.dropWhile isSpaceChar).reverse.dropWhile isSpaceChar).reverse⟩

/-- JavaScript truthiness of a possibly-undefined string: `undefined`,
`null` and the empty string are falsy. -/
def truthyStr : Option String → Bool
  | none => false
  | some s => !s.isEmpty

/-- Embedding of the JavaScript `a || b` fallback on a possibly-undefined
string value. -/
def jsOrStr : Option String → String → String
  | none, d => d
  | some s, d => if s.isEmpty then d else s

/-- Embedding of the JavaScript `a || b` fallback on a possibly-undefined
number (`0` and `NaN` are falsy). -/
def jsOrNum : Option Int → Int → Int
  | none, d => d
  | some v, d => if v == 0 then d else v

/-- NaN-propagating addition of a constant (`hours += 12` on a possibly-NaN
value). -/
def jsAddNum (a : Option Int) (b : Int) : Option Int :=
  a.map (fun v => v + b)

/-- NaN-propagating subtraction of a constant (`month - 1`). -/
def jsSubNum (a : Option Int) (b : Int) : Option Int :=
  a.map (fun v => v - b)

/-- Embedding of the JavaScript strict comparison `a > b` where `a` may be
`NaN`/`undefined`: any comparison against `NaN` is false. -/
def jsGtNum : Option Int → Int → Bool
  | none, _ => false
  | some v, t => decide (v > t)

/-- Embedding of `a !== b` on a possibly-NaN number: `NaN !== b` is true. -/
def jsNeqNum : Option Int → Int → Bool
  | none, _ => true
  | some v, t => decide (v ≠ t)

/-- Embedding of `a === b` on a possibly-NaN number: `NaN === b` is false. -/
def jsEqNum : Option Int → Int → Bool
  | none, _ => false
  | some v, t => decide (v = t)

/-- Day number (days since 1970-01-01) of a civil date, for `m ∈ [1,12]`
and arbitrary day offsets; standard civil-calendar arithmetic matching the
proleptic Gregorian calendar used by JavaScript `Date.UTC`. -/
def daysFromCivil (y m d : Int) : Int :=
  let y' := if m ≤ 2 then y - 1 else y
  let era := Int.fdiv y' 400
  let yoe := y' - era * 400
  let mp := if m > 2 then m - 3 else m + 9
  let doy := Int.fdiv (153 * mp + 2) 5 + d - 1
  let doe := yoe * 365 + Int.fdiv yoe 4 - Int.fdiv yoe 100 + doy
  era * 146097 + doe - 719468

/-- Embedding of `Date.UTC(year, monthIndex, day, hours, minutes, 0, 0)`
as epoch milliseconds, including the overflow normalization JavaScript
applies to each component (month indices outside `0..11` roll the year,
out-of-range days, hours and minutes roll over arithmetically). -/
def jsDateUTC (year monthIndex day hours minutes : Int) : Int :=
  let ymTotal := year * 12 + monthIndex
  let ny := Int.fdiv ymTotal 12
  let nm := Int.emod ymTotal 12
  daysFromCivil ny (nm + 1) day * 86400000 + hours * 3600000 + minutes * 60000

/-- Lifting of `jsDateUTC` to possibly-NaN components: a `NaN` component
yields an Invalid Date (`none`). -/
def jsDateUTCOpt (year monthIndex day hours minutes : Option Int) : Option Int :=
  match year, monthIndex, day, hours, minutes with
  | some y, some mo, some d, some h, some mi => some (jsDateUTC y mo d h mi)
  | _, _, _, _, _ => none

namespace WebhookHandler

/-- Date block of `parseDateTime` in webhook-handler.js (lines 200-217):
a string containing a dash is split as `YYYY-MM-DD`; otherwise a string
containing a slash is split into three numeric components, read as
`DD/MM/YYYY` when the first component exceeds 12 and as `MM/DD/YYYY`
otherwise; any other string throws `Invalid date format`.  The result
triple is `(year, month, day)`. -/
def parseDateComponents (dateStr : String) :
    Except String (Option Int × Option Int × Option Int) :=
  if charIn '-' dateStr then
    let parts := (jsSplit dateStr '-').map jsNumber
    .ok (getNum parts 0, getNum parts 1, getNum parts 2)
  else if charIn '/' dateStr then
    let parts := (jsSplit dateStr '/').map jsNumber
    if jsGtNum (getNum parts 0) 12 then
      .ok (getNum parts 2, getNum parts 1, getNum parts 0)
    else
      .ok (getNum parts 2, getNum parts 0, getNum parts 1)
  else
    .error ("Invalid date format: " ++ dateStr)

/-- Embedding of the regex deletion `replace` step of the time parser: a
left-to-right scan removing every two-character case-insensitive
`am`/`pm` occurrence. -/
def stripAmPmChars : List Char → List Char
  | a :: m :: rest =>
    if (a.toLower == 'a' || a.toLower == 'p') && m.toLower == 'm' then
      stripAmPmChars rest
    else
      a :: stripAmPmChars (m :: rest)
  | l => l

/-- Time block of `parseDateTime` in webhook-handler.js (lines 219-232):
a string carrying a case-insensitive `am`/`pm` marker is stripped,
trimmed, split as `HH:MM` and converted to 24-hour form (`12 AM` to `0`,
PM hours other than 12 gain 12); otherwise the string is split as
24-hour `HH:MM` directly.  The result pair is `(hours, minutes)`. -/
def parseTimeComponents (timeStr : String) : Option Int × Option Int :=
  let timeLower := lowerStr timeStr
  if strIncludes timeLower "am" || strIncludes timeLower "pm" then
    let isPM := strIncludes timeLower "pm"
    let timeOnly := jsTrim ⟨stripAmPmChars timeStr.data⟩
    let parts := (jsSplit timeOnly ':').map jsNumber
    let hours := getNum parts 0
    let minutes := getNum parts 1
    let hours := if isPM && jsNeqNum hours 12 then jsAddNum hours 12 else hours
    let hours := if !isPM && jsEqNum hours 12 then some 0 else hours
    (hours, minutes)
  else
    let parts := (jsSplit timeStr ':').map jsNumber
    (getNum parts 0, getNum parts 1)

/-- Embedding of `parseDateTime(dateStr, timeStr, timezone)` in
webhook-handler.js: the date and time components are decomposed and the
instant is built with `Date.UTC`; the `timezone` argument is accepted but
never read by the body.  An unrecognized date format throws
(`Except.error`); a `NaN` component yields an Invalid Date (`ok none`). -/
def parseDateTime (dateStr timeStr timezone : String) : Except String (Option Int) :=
  match parseDateComponents dateStr with
  | .error e => .error e
  | .ok (year, month, day) =>
    let (hours, minutes) := parseTimeComponents timeStr
    .ok (jsDateUTCOpt year (jsSubNum month 1) day hours minutes)

/-- Embedding of `formatDateTime(date, timezone)`: the source renders the
instant with `toLocaleString`, a host locale facility; the embedding
renders a deterministic placeholder carrying the same inputs.  No claim
depends on the rendered text. -/
def formatDateTime (date : Int) (timezone : String) : String :=
  "formatted " ++ toString date ++ " in " ++ timezone

end WebhookHandler

/-- Comma-style join, embedding `Array.prototype.join(sep)`. -/
def joinWith (sep : String) : List String → String
  | [] => ""
  | [x] => x
  | x :: xs => x ++ sep ++ joinWith sep xs

/-- Stored Google Calendar integration record as mapped by
`getUserIntegration`.  `expiresAt` is `none` when the stored expiry is
absent or an Invalid Date (its `NaN` time value makes every comparison
false, exactly as the comparison helpers of the embedding do). -/
structure Integration where
  userId : Int
  provider : String
  accessToken : Option String
  refreshToken : Option String
  expiresAt : Option Int
  createdAt : Int
  updatedAt : Int
deriving DecidableEq, Repr

/-- Comparison `expiresAt < t` on a stored expiry: false for an Invalid
Date, matching JavaScript `Date` comparison through `NaN`. -/
def jsDateLt : Option Int → Int → Bool
  | none, _ => false
  | some v, t => decide (v < t)

/-- Comparison `expiresAt > t` on a stored expiry, false for an Invalid
Date. -/
def jsDateGt : Option Int → Int → Bool
  | none, _ => false
  | some v, t => decide (v > t)

/-- Decidable equality for fetch outcomes, so that concrete runs of the
embedding can be checked by `decide`. -/
instance {α β : Type} [DecidableEq α] [DecidableEq β] : DecidableEq (Except α β) :=
  fun x y =>
    match x, y with
    | .error a, .error b =>
      if h : a = b then .isTrue (congrArg Except.error h)
      else .isFalse (fun hc => h (by injection hc))
    | .error _, .ok _ => .isFalse (fun hc => Except.noConfusion hc)
    | .ok _, .error _ => .isFalse (fun hc => Except.noConfusion hc)
    | .ok a, .ok b =>
      if h : a = b then .isTrue (congrArg Except.ok h)
      else .isFalse (fun hc => h (by injection hc))

/-- Parsed JSON body of the OAuth token endpoint response; each field is
`none` when the key is absent from the payload. -/
structure TokenJson where
  access_token : Option String
  expires_in : Option Int
deriving DecidableEq, Repr

/-- Observed response of the token-endpoint fetch: HTTP success flag, the
outcome of `response.json()` (`Except.error` carries the parse-failure
message thrown on a malformed body) and the raw `response.text()`. -/
structure TokenResponse where
  ok : Bool
  body : Except String TokenJson
  text : String
deriving DecidableEq, Repr

/-- Raw Google Calendar event item as consumed by the mapping in
`getGoogleCalendarEvents`: identifier, optional `summary`, instants
already embedded as epoch milliseconds, and whether `start.dateTime` was
present (its absence marks an all-day event). -/
structure RawEvent where
  id : String
  summary : Option String
  start : Int
  «end» : Int
  hasStartDateTime : Bool
deriving DecidableEq, Repr

/-- Projected calendar event produced by `getGoogleCalendarEvents`. -/
structure CalendarEvent where
  id : String
  title : String
  start : Int
  «end» : Int
  allDay : Bool
deriving DecidableEq, Repr

/-- Observed response of the event-list fetch.  In the `ok` case the body
holds `data.items`, with `none` embedding an absent `items` key (the code
falls back to `[]`). -/
structure ListResponse where
  ok : Bool
  body : Except String (Option (List RawEvent))
  text : String
deriving DecidableEq, Repr

/-- Parsed JSON body of the event-create response. -/
structure CreateJson where
  id : Option String
  htmlLink : Option String
deriving DecidableEq, Repr

/-- Observed response of the event-create fetch. -/
structure CreateResponse where
  ok : Bool
  body : Except String CreateJson
  text : String
deriving DecidableEq, Repr

namespace CalendarService

/-- The `$set` document written by `refreshAccessToken` in
calendar-service.js: exactly the keys `accessToken`, `expiresAt` and
`updatedAt`.  `accessToken` is `none` when the token payload carried no
`access_token` (JavaScript writes `undefined`); `expiresAt` is `none`
when `expires_in` was absent (`now + undefined * 1000` is an Invalid
Date). -/
structure RefreshSet where
  accessToken : Option String
  expiresAt : Option Int
  updatedAt : Int
deriving DecidableEq, Repr

/-- Result of applying a `RefreshSet` update to a stored record: MongoDB
`$set` replaces exactly the listed fields and leaves every other field
untouched. -/
def applyRefreshSet (rec : Integration) (u : RefreshSet) : Integration :=
  { rec with accessToken := u.accessToken, expiresAt := u.expiresAt,
             updatedAt := u.updatedAt }

/-- Side effects observed during one run: the integration-store updates
performed, the number of token-endpoint fetches and the number of
event-create fetches. -/
structure Effects where
  updates : List RefreshSet
  tokenFetches : Nat
  createCalls : Nat
deriving DecidableEq, Repr

/-- Effect record of a run that touched nothing. -/
def Effects.empty : Effects := ⟨[], 0, 0⟩

/-- Sequencing of effect records. -/
def Effects.seq (a b : Effects) : Effects :=
  ⟨a.updates ++ b.updates, a.tokenFetches + b.tokenFetches,
   a.createCalls + b.createCalls⟩

/-- Environment of one request: the integration record `findOne` returns,
the current time and the responses each network fetch would observe. -/
structure Env where
  integration : Option Integration
  now : Int
  tokenResponse : TokenResponse
  listResponse : ListResponse
  createResponse : CreateResponse
deriving DecidableEq, Repr

/-- Embedding of `refreshAccessToken` (calendar-service.js lines 62-102):
the token endpoint is fetched; a non-success response throws
`Token refresh failed: <body text>` before any store write; a malformed
body throws the JSON parse error before any write; otherwise one `$set`
update writes the new access token, the expiry `now + expires_in * 1000`
and `updatedAt = now`, and the new access token is returned. -/
def refreshAccessToken (env : Env) : Except String (Option String) × Effects :=
  if !env.tokenResponse.ok then
    (.error ("Token refresh failed: " ++ env.tokenResponse.text), ⟨[], 1, 0⟩)
  else
    match env.tokenResponse.body with
    | .error e => (.error e, ⟨[], 1, 0⟩)
    | .ok tokens =>
      let expiresAt := tokens.expires_in.map (fun s => env.now + s * 1000)
      (.ok tokens.access_token,
       ⟨[⟨tokens.access_token, expiresAt, env.now⟩], 1, 0⟩)

/-- Embedding of `getValidAccessToken` (calendar-service.js lines
107-127): a missing record or falsy access token throws the
`not connected` error; an expiry below `now + 5` minutes triggers a
refresh (throwing the `No refresh token available` error when the refresh
token is falsy); otherwise the stored access token is returned with no
fetch and no write. -/
def getValidAccessToken (env : Env) : Except String (Option String) × Effects :=
  match env.integration with
  | none =>
    (.error "Google Calendar not connected. Please connect your calendar in Integrations.",
     Effects.empty)
  | some integration =>
    if !truthyStr integration.accessToken then
      (.error "Google Calendar not connected. Please connect your calendar in Integrations.",
       Effects.empty)
    else
      let fiveMinutesFromNow := env.now + 5 * 60 * 1000
      if jsDateLt integration.expiresAt fiveMinutesFromNow then
        if !truthyStr integration.refreshToken then
          (.error "No refresh token available. Please reconnect your calendar.",
           Effects.empty)
        else
          refreshAccessToken env
      else
        (.ok integration.accessToken, Effects.empty)

/-- Embedding of `getGoogleCalendarEvents` (calendar-service.js lines
132-161): a non-success response throws `Failed to fetch Google Calendar
events: <body text>`; a malformed body throws the parse error; otherwise
`data.items || []` is mapped to projected events, the title falling back
to `Busy` for a falsy `summary` and `allDay` marking events without a
`start.dateTime`. -/
def getGoogleCalendarEvents (env : Env) : Except String (List CalendarEvent) :=
  if !env.listResponse.ok then
    .error ("Failed to fetch Google Calendar events: " ++ env.listResponse.text)
  else
    match env.listResponse.body with
    | .error e => .error e
    | .ok items =>
      .ok ((items.getD []).map (fun event =>
        { id := event.id
          title := jsOrStr event.summary "Busy"
          start := event.start
          «end» := event.«end»
          allDay := !event.hasStartDateTime }))

/-- Availability result returned by `checkAvailability`. -/
structure AvailabilityResult where
  available : Bool
  conflicts : List CalendarEvent
deriving DecidableEq, Repr

/-- Embedding of `checkAvailability` (calendar-service.js lines 166-229):
a valid access token is obtained, events are fetched in the padded window
`[proposedTime - 1h, proposedEnd + 1h]`, and the conflicts are the events
with `event.start < proposedEnd && event.end > proposedTime` where
`proposedEnd = proposedTime + durationMinutes * 60 * 1000`.  The
surrounding try/catch converts any thrown error whose message contains
`not connected` into the fail-open result `{available: true, conflicts:
[]}` and rethrows every other error. -/
def checkAvailability (env : Env) (proposedTime : Int) (durationMinutes : Int) :
    Except String AvailabilityResult × Effects :=
  let tokenAttempt := getValidAccessToken env
  let eff := tokenAttempt.2
  match tokenAttempt.1 with
  | .error e =>
    if strIncludes e "not connected" then (.ok ⟨true, []⟩, eff)
    else (.error e, eff)
  | .ok _accessToken =>
    let duration := durationMinutes * 60 * 1000
    let proposedEnd := proposedTime + duration
    let _timeMin := proposedTime - 60 * 60 * 1000
    let _timeMax := proposedEnd + 60 * 60 * 1000
    match getGoogleCalendarEvents env with
    | .error e =>
      if strIncludes e "not connected" then (.ok ⟨true, []⟩, eff)
      else (.error e, eff)
    | .ok events =>
      let conflicts := events.filter (fun event =>
        event.start < proposedEnd && event.«end» > proposedTime)
      if conflicts.length > 0 then
        (.ok ⟨false, conflicts⟩, eff)
      else
        (.ok ⟨true, []⟩, eff)

/-- Result of `createGoogleCalendarEvent`. -/
structure CreateResult where
  eventId : Option String
  eventUrl : Option String
deriving DecidableEq, Repr

/-- Embedding of `createGoogleCalendarEvent` (calendar-service.js lines
234-297): the create fetch is performed; a non-success response throws
`Failed to create Google Calendar event: <body text>`; a malformed body
throws the parse error; otherwise the created event id and link are
returned. -/
def createGoogleCalendarEvent (env : Env) : Except String CreateResult :=
  if !env.createResponse.ok then
    .error ("Failed to create Google Calendar event: " ++ env.createResponse.text)
  else
    match env.createResponse.body with
    | .error e => .error e
    | .ok data => .ok ⟨data.id, data.htmlLink⟩

/-- Attendee information passed to `bookMeeting`. -/
structure LeadInfo where
  email : String
  name : String
  phone : Option String
deriving DecidableEq, Repr

/-- Meeting details passed to `bookMeeting`. -/
structure MeetingDetails where
  title : String
  description : Option String
  scheduledAt : Int
  durationMinutes : Option Int
  timezone : String
deriving DecidableEq, Repr

/-- Booking outcome returned by `bookMeeting`: fields absent from the
returned object literal are `none`. -/
structure BookingOutcome where
  success : Bool
  calendarEventId : Option String
  error : Option String
deriving DecidableEq, Repr

/-- Embedding of `bookMeeting` (calendar-service.js lines 303-352):
availability is checked for the proposed slot; an unavailable slot
returns `success:false` with the comma-joined conflict titles and no
create call; otherwise a valid token is obtained and the create fetch is
performed.  The surrounding try/catch turns any thrown error into
`success:false` with `error.message || "Failed to book meeting"`. -/
def bookMeeting (env : Env) (leadInfo : LeadInfo) (meetingDetails : MeetingDetails) :
    BookingOutcome × Effects :=
  let durationMinutes := jsOrNum meetingDetails.durationMinutes 30
  let _endTime := meetingDetails.scheduledAt + durationMinutes * 60 * 1000
  let availabilityAttempt := checkAvailability env meetingDetails.scheduledAt durationMinutes
  let eff := availabilityAttempt.2
  match availabilityAttempt.1 with
  | .error e =>
    (⟨false, none, some (if e.isEmpty then "Failed to book meeting" else e)⟩, eff)
  | .ok availability =>
    if !availability.available then
      (⟨false, none,
        some ("Time slot not available. Conflicts with: " ++
              joinWith ", " (availability.conflicts.map (fun c => c.title)))⟩, eff)
    else
      let tokenAttempt := getValidAccessToken env
      let eff₂ := tokenAttempt.2
      match tokenAttempt.1 with
      | .error e =>
        (⟨false, none, some (if e.isEmpty then "Failed to book meeting" else e)⟩,
         eff.seq eff₂)
      | .ok _accessToken =>
        let _description := jsOrStr meetingDetails.description
          ("Meeting with " ++ leadInfo.name)
        match createGoogleCalendarEvent env with
        | .error e =>
          (⟨false, none, some (if e.isEmpty then "Failed to book meeting" else e)⟩,
           eff.seq (eff₂.seq ⟨[], 0, 1⟩))
        | .ok result =>
          (⟨true, result.eventId, none⟩, eff.seq (eff₂.seq ⟨[], 0, 1⟩))

end CalendarService

namespace ApiCalendar

/-- The `$set` document written by `getValidAccessToken` in
src/api/vapi/calendar.js: exactly the keys `accessToken` and `expiresAt`
(this variant does not touch `updatedAt`).  `accessToken` is `none` when
the token payload carried no `access_token`; `expiresAt` is `none` when
`expires_in` was absent. -/
structure RefreshSet where
  accessToken : Option String
  expiresAt : Option Int
deriving DecidableEq, Repr

/-- Result of applying an api-variant `$set` to a stored record. -/
def applyRefreshSet (rec : Integration) (u : RefreshSet) : Integration :=
  { rec with accessToken := u.accessToken, expiresAt := u.expiresAt }

/-- Environment of the api-variant token path: current time and the
token-endpoint response. -/
structure Env where
  now : Int
  tokenResponse : TokenResponse
deriving DecidableEq, Repr

/-- Embedding of `getValidAccessToken(integration)` in
src/api/vapi/calendar.js (lines 233-267): when the stored expiry is
present and strictly in the future the stored token is returned with no
fetch and no write; otherwise the token endpoint is fetched and — with no
check of `response.ok` — whatever `response.json()` yields is written to
the store (`accessToken = data.access_token`,
`expiresAt = now + data.expires_in * 1000`) and `data.access_token` is
returned.  Only a body that fails to parse as JSON throws. -/
def getValidAccessToken (env : Env) (integration : Integration) :
    Except String (Option String) × List RefreshSet :=
  if integration.expiresAt.isSome && jsDateGt integration.expiresAt env.now then
    (.ok integration.accessToken, [])
  else
    match env.tokenResponse.body with
    | .error e => (.error e, [])
    | .ok data =>
      (.ok data.access_token,
       [⟨data.access_token, data.expires_in.map (fun s => env.now + s * 1000)⟩])

end ApiCalendar

namespace ToolHandler

/-- Embedding of `calculateDuration(startTime, endTime)` as it appears
identically in src/unnamed/part_000 (lines 225-229) and
src/api/vapi/calendar.js (lines 316-320): both time strings are split on
a colon, mapped through `Number`, and the signed difference
`(endHour * 60 + endMin) - (startHour * 60 + startMin)` is returned with
no validation; `none` is the `NaN` produced by a non-numeric component. -/
def calculateDuration (startTime endTime : String) : Option Int :=
  let startParts := (jsSplit startTime ':').map jsNumber
  let endParts := (jsSplit endTime ':').map jsNumber
  let startHour := getNum startParts 0
  let startMin := getNum startParts 1
  let endHour := getNum endParts 0
  let endMin := getNum endParts 1
  match endHour, endMin, startHour, startMin with
  | some eh, some em, some sh, some sm => some ((eh * 60 + em) - (sh * 60 + sm))
  | _, _, _, _ => none

end ToolHandler

/-- Embedding of `a || b` when both sides are possibly-undefined strings
(`leadPhone || call.customer?.number`). -/
def jsOrOpt : Option String → Option String → Option String
  | none, d => d
  | some s, d => if s.isEmpty then d else some s

namespace WebhookHandler

/-- Parameters of the `check_calendar_availability` function call; each
field is `none` when absent from the payload. -/
structure CheckParams where
  date : Option String
  time : Option String
  timezone : Option String
  duration_minutes : Option Int
deriving DecidableEq, Repr

/-- Result object returned to the voice agent by the handlers. -/
structure HandlerResult where
  result : String
  success : Bool
deriving DecidableEq, Repr

/-- Result produced by the catch block of `handleCheckAvailability`. -/
def checkCatchResult : HandlerResult :=
  ⟨"I\x27m having trouble checking the calendar right now. Could you try a different time?",
   false⟩

/-- Embedding of `handleCheckAvailability` (webhook-handler.js lines
78-122): missing date or time asks for them; the proposed instant is
parsed (a parse failure, or the `toISOString` call on an Invalid Date,
throws into the catch block); availability is checked, any thrown error
again landing in the catch block; otherwise the available/unavailable
sentence is rendered around `formatDateTime`. -/
def handleCheckAvailability (env : CalendarService.Env) (parameters : CheckParams) :
    HandlerResult :=
  let timezone := parameters.timezone.getD "UTC"
  let duration_minutes := parameters.duration_minutes.getD 30
  if !truthyStr parameters.date || !truthyStr parameters.time then
    ⟨"I need both a date and time to check availability. Could you provide those?", false⟩
  else
    match parseDateTime (parameters.date.getD "") (parameters.time.getD "") timezone with
    | .error _ => checkCatchResult
    | .ok none => checkCatchResult
    | .ok (some proposedDateTime) =>
      match (CalendarService.checkAvailability env proposedDateTime duration_minutes).1 with
      | .error _ => checkCatchResult
      | .ok availability =>
        if availability.available then
          ⟨"Great! " ++ formatDateTime proposedDateTime timezone ++
           " is available. Would you like to book this time?", true⟩
        else
          let conflictNames := joinWith ", " (availability.conflicts.map (fun c => c.title))
          ⟨"Unfortunately, " ++ formatDateTime proposedDateTime timezone ++
           " is not available. There\x27s already " ++ conflictNames ++
           " scheduled. Could you suggest another time that works for you?", false⟩

/-- Parameters of the `book_calendar_meeting` function call. -/
structure BookParams where
  date : Option String
  time : Option String
  timezone : Option String
  duration : Option Int
  leadName : Option String
  leadEmail : Option String
  leadPhone : Option String
  companyName : Option String
  meetingNotes : Option String
  meetingTitle : Option String
deriving DecidableEq, Repr

/-- Result produced by the catch block of `handleBookMeeting`. -/
def bookCatchResult : HandlerResult :=
  ⟨"I encountered an error booking the meeting. Let me transfer you to someone who can help.",
   false⟩

/-- Embedding of `handleBookMeeting` (webhook-handler.js lines 127-193):
missing required fields ask for them; the proposed instant is parsed (a
parse failure or Invalid Date throws into the catch block); `bookMeeting`
is invoked with the lead and meeting details built exactly as in the
source; on failure the outcome embeds the `result.error` string (with
its fixed fallback sentence) verbatim in the spoken sentence. -/
def handleBookMeeting (env : CalendarService.Env) (parameters : BookParams)
    (callCustomerNumber : Option String) : HandlerResult :=
  let timezone := parameters.timezone.getD "UTC"
  let duration := parameters.duration.getD 30
  if !truthyStr parameters.date || !truthyStr parameters.time ||
     !truthyStr parameters.leadName || !truthyStr parameters.leadEmail then
    ⟨"I need the date, time, your name, and email to book the meeting. Could you provide those?",
     false⟩
  else
    let leadName := parameters.leadName.getD ""
    let leadEmail := parameters.leadEmail.getD ""
    match parseDateTime (parameters.date.getD "") (parameters.time.getD "") timezone with
    | .error _ => bookCatchResult
    | .ok none => bookCatchResult
    | .ok (some scheduledAt) =>
      let result := (CalendarService.bookMeeting env
        ⟨leadEmail, leadName, jsOrOpt parameters.leadPhone callCustomerNumber⟩
        ⟨jsOrStr parameters.meetingTitle ("Meeting with " ++ leadName),
         some (jsOrStr parameters.meetingNotes "Scheduled via AI call"),
         scheduledAt, some duration, timezone⟩).1
      if result.success then
        ⟨"Perfect! I\x27ve booked " ++ formatDateTime scheduledAt timezone ++
         " for you. You\x27ll receive a calendar invite at " ++ leadEmail ++ " shortly.", true⟩
      else
        ⟨"I wasn\x27t able to book that time. " ++
         jsOrStr result.error "Please try a different time.", false⟩

end WebhookHandler

namespace Fixtures

/-- A healthy stored integration: token present, expiry far in the
future. -/
def integOK : Integration :=
  ⟨1, "google-calendar", some "stored-token", some "refresh-token",
   some 99999999999999, 1700000000000, 1700000000000⟩

/-- Environment in which every fetch succeeds and the calendar is free. -/
def envFree : CalendarService.Env :=
  { integration := some integOK
    now := 1768900000000
    tokenResponse := ⟨true, .ok ⟨some "new-token", some 3600⟩, ""⟩
    listResponse := ⟨true, .ok (some []), ""⟩
    createResponse := ⟨true, .ok ⟨some "evt-1", some "http://link"⟩, ""⟩ }

/-- The raw calendar event `[10:00, 11:00)` on 2026-01-20, titled
`Standup`. -/
def standupRaw : RawEvent :=
  ⟨"e1", some "Standup", jsDateUTC 2026 0 20 10 0, jsDateUTC 2026 0 20 11 0, true⟩

/-- The projection of `standupRaw` through `getGoogleCalendarEvents`. -/
def standup : CalendarEvent :=
  ⟨"e1", "Standup", jsDateUTC 2026 0 20 10 0, jsDateUTC 2026 0 20 11 0, false⟩

/-- Environment whose calendar holds exactly the `Standup` event. -/
def envStandup : CalendarService.Env :=
  { envFree with listResponse := ⟨true, .ok (some [standupRaw]), ""⟩ }

/-- Environment for a user whose calendar integration is absent. -/
def envNoIntegration : CalendarService.Env :=
  { envFree with integration := none }

/-- An expiring integration record with no refresh token. -/
def integUnrefreshable : Integration :=
  { integOK with expiresAt := some 1768900000001, refreshToken := none }

/-- Environment whose integration is expiring with no refresh token, so
the token lookup fails with an error not mentioning `not connected`. -/
def envUnrefreshable : CalendarService.Env :=
  { envFree with integration := some integUnrefreshable }

/-- Environment whose event-list fetch fails. -/
def envListFail : CalendarService.Env :=
  { envFree with listResponse := ⟨false, .ok none, "backend unavailable"⟩ }

/-- Environment whose event-create fetch fails with provider error text. -/
def envCreateFail : CalendarService.Env :=
  { envFree with createResponse :=
      ⟨false, .ok ⟨none, none⟩, "insufficientPermissions for tok_user_42"⟩ }

/-- Environment whose token endpoint answers a non-success response whose
JSON body carries no token (the shape of an OAuth error payload). -/
def envRefreshFail : CalendarService.Env :=
  { envFree with
      integration := some { integOK with expiresAt := some 1768900000001 },
      tokenResponse := ⟨false, .ok ⟨none, none⟩, "invalid_grant"⟩ }

/-- The api-variant environment matching `envRefreshFail`. -/
def apiEnvRefreshFail : ApiCalendar.Env :=
  ⟨1768900000000, ⟨false, .ok ⟨none, none⟩, "invalid_grant"⟩⟩

/-- An expired integration record for the api variant. -/
def integExpired : Integration :=
  { integOK with expiresAt := some 1768899999999 }

/-- Book-meeting parameters with every required field present. -/
def bookParams : WebhookHandler.BookParams :=
  ⟨some "2026-01-20", some "14:00", none, none, some "Ana", some "ana@example.com",
   none, none, none, none⟩

/-- Check-availability parameters with date and time present. -/
def checkParams : WebhookHandler.CheckParams :=
  ⟨some "2026-01-20", some "14:00", none, none⟩

/-- A lead used by the booking fixtures. -/
def lead : CalendarService.LeadInfo := ⟨"ana@example.com", "Ana", none⟩

/-- Meeting details for a slot at 2026-01-20 14:00 UTC, 30 minutes. -/
def meeting : CalendarService.MeetingDetails :=
  ⟨"Intro call", none, jsDateUTC 2026 0 20 14 0, some 30, "UTC"⟩

/-- Meeting details for the slot `[10:30, 11:30)` on 2026-01-20, which
overlaps the `Standup` event. -/
def meetingOverlap : CalendarService.MeetingDetails :=
  ⟨"Intro call", none, jsDateUTC 2026 0 20 10 30, some 60, "UTC"⟩

end Fixtures

/-- Claim C4: the claim states that a zero or negative computed duration
is rejected with an `InvalidDuration` failure.  The code has no such
rejection: `calculateDuration` returns the signed difference unchecked,
so `duration("09:00","09:30")` is `30` as claimed but
`duration("14:00","13:00")` silently evaluates to `-60` and is passed on
as the slot duration. -/
theorem calculateDuration_silently_negative :
    ToolHandler.calculateDuration "09:00" "09:30" = some 30 ∧
    ToolHandler.calculateDuration "14:00" "13:00" = some (-60) := by
  decide

/-- Claim C5: the claim states that every failed token refresh propagates
an error and leaves the stored record entirely unchanged.  The
webhook-service variant does behave so (second conjunct: a non-success
token response propagates `Token refresh failed` with an empty update
list), but the serverless variant `src/api/vapi/calendar.js` never checks
`response.ok`: on a non-success JSON response it persists a `$set` with
an undefined access token and an invalid expiry, and returns no error
(first conjunct). -/
theorem apiRefresh_incomplete_update_on_failed_refresh :
    ApiCalendar.getValidAccessToken Fixtures.apiEnvRefreshFail Fixtures.integExpired =
      (.ok none, [⟨none, none⟩]) ∧
    CalendarService.refreshAccessToken Fixtures.envRefreshFail =
      (.error "Token refresh failed: invalid_grant", ⟨[], 1, 0⟩) := by
  decide

/-- Claim C8: `parseDateTime` is deterministic and timezone-invariant:
changing only the timezone hint never changes the resolved instant (the
hint is accepted and ignored by the parser), and the instant is built by
`Date.UTC` from the numeric year, month, day, hour and minute components
with no timezone shift, as the two concrete decompositions show. -/
theorem parseDateTime_timezone_invariant (dateStr timeStr tz₁ tz₂ : String) :
    WebhookHandler.parseDateTime dateStr timeStr tz₁ =
      WebhookHandler.parseDateTime dateStr timeStr tz₂ ∧
    WebhookHandler.parseDateTime "2026-01-20" "14:00" tz₁ =
      .ok (some (jsDateUTC 2026 (1 - 1) 20 14 0)) ∧
    WebhookHandler.parseDateTime "25/04/2026" "2:30 PM" tz₁ =
      .ok (some (jsDateUTC 2026 (4 - 1) 25 14 30)) := by
  exact ⟨rfl, rfl, rfl⟩

/-- Helper: the token-refresh embedding never performs a create call. -/
theorem refreshAccessToken_createCalls (env : CalendarService.Env) :
    ((CalendarService.refreshAccessToken env).2).createCalls = 0 := by
  unfold CalendarService.refreshAccessToken
  repeat' split
  all_goals rfl

/-- Helper: the token-lookup embedding never performs a create call. -/
theorem getValidAccessToken_createCalls (env : CalendarService.Env) :
    ((CalendarService.getValidAccessToken env).2).createCalls = 0 := by
  unfold CalendarService.getValidAccessToken
  cases henv : env.integration with
  | none => rfl
  | some integ =>
    dsimp only
    split
    · rfl
    · split
      · split
        · rfl
        · exact refreshAccessToken_createCalls env
      · rfl

/-- Helper: the availability check never performs a create call. -/
theorem checkAvailability_createCalls (env : CalendarService.Env) (t d : Int) :
    ((CalendarService.checkAvailability env t d).2).createCalls = 0 := by
  unfold CalendarService.checkAvailability
  dsimp only
  cases (CalendarService.getValidAccessToken env).1 <;>
    (repeat' split) <;> exact getValidAccessToken_createCalls env

/-- Claim C1: `checkAvailability` counts an event as a conflict iff
`event.start < proposedEnd` and `event.end > proposedStart` with
`proposedEnd = proposedStart + durationMinutes` (in milliseconds), so an
event that only touches a boundary (`event.end = proposedStart` or
`event.start = proposedEnd`) is never a conflict, and the slot is
available exactly when no event conflicts. -/
theorem checkAvailability_overlap_iff
    (env : CalendarService.Env) (proposedTime durationMinutes : Int)
    (a : Option String) (events : List CalendarEvent)
    (htok : (CalendarService.getValidAccessToken env).1 = .ok a)
    (hlist : CalendarService.getGoogleCalendarEvents env = .ok events) :
    ∃ r, (CalendarService.checkAvailability env proposedTime durationMinutes).1 = .ok r ∧
      (∀ e, e ∈ r.conflicts ↔
        (e ∈ events ∧ e.start < proposedTime + durationMinutes * 60 * 1000 ∧
          e.«end» > proposedTime)) ∧
      (r.available = true ↔ r.conflicts = []) ∧
      (∀ e, e ∈ events →
        (e.«end» = proposedTime ∨ e.start = proposedTime + durationMinutes * 60 * 1000) →
        e ∉ r.conflicts) := by
  simp only [CalendarService.checkAvailability]
  rw [htok, hlist]
  set conflicts := events.filter (fun event =>
    decide (event.start < proposedTime + durationMinutes * 60 * 1000) &&
    decide (event.«end» > proposedTime)) with hc
  by_cases h : conflicts.length > 0
  · refine ⟨⟨false, conflicts⟩, by simp [if_pos h], ?_, ?_, ?_⟩
    · intro e
      rw [hc]
      simp [List.mem_filter]
    · simp only [Bool.false_eq_true, false_iff]
      intro hnil
      rw [hnil] at h
      simp at h
    · intro e hmem hb hin
      rw [hc] at hin
      have hp := (List.mem_filter.mp hin).2
      rw [Bool.and_eq_true, decide_eq_true_eq, decide_eq_true_eq] at hp
      rcases hb with hb | hb <;> omega
  · have hlen : conflicts.length = 0 := Nat.eq_zero_of_not_pos h
    have hnil : conflicts = [] := List.length_eq_zero.mp hlen
    refine ⟨⟨true, []⟩, by simp [if_neg h], ?_, by simp,
      fun e _ _ hin => absurd hin (List.not_mem_nil e)⟩
    intro e
    simp only [List.not_mem_nil, false_iff]
    rintro ⟨hmem, hlt, hgt⟩
    have hin : e ∈ conflicts := by
      rw [hc]
      simp [List.mem_filter, hmem, hlt, hgt]
    rw [hnil] at hin
    exact absurd hin (List.not_mem_nil e)

/-- Witness for C1 at the example given in the claim: the event `[10:00, 11:00)`
does not conflict with the proposed slot `[11:00, 11:30)` (boundary
touch) but does conflict with `[10:30, 11:30)`. -/
theorem checkAvailability_overlap_iff_witness :
    ((CalendarService.getValidAccessToken Fixtures.envStandup).1 = .ok (some "stored-token") ∧
     CalendarService.getGoogleCalendarEvents Fixtures.envStandup = .ok [Fixtures.standup]) ∧
    (∃ r, (CalendarService.checkAvailability Fixtures.envStandup
            (jsDateUTC 2026 0 20 11 0) 30).1 = .ok r ∧
      (∀ e, e ∈ r.conflicts ↔
        (e ∈ [Fixtures.standup] ∧ e.start < jsDateUTC 2026 0 20 11 0 + 30 * 60 * 1000 ∧
          e.«end» > jsDateUTC 2026 0 20 11 0)) ∧
      (r.available = true ↔ r.conflicts = []) ∧
      (∀ e, e ∈ [Fixtures.standup] →
        (e.«end» = jsDateUTC 2026 0 20 11 0 ∨
          e.start = jsDateUTC 2026 0 20 11 0 + 30 * 60 * 1000) →
        e ∉ r.conflicts)) ∧
    (CalendarService.checkAvailability Fixtures.envStandup
      (jsDateUTC 2026 0 20 11 0) 30).1 = .ok ⟨true, []⟩ ∧
    (CalendarService.checkAvailability Fixtures.envStandup
      (jsDateUTC 2026 0 20 10 30) 60).1 = .ok ⟨false, [Fixtures.standup]⟩ :=
  ⟨⟨by decide, by decide⟩,
   checkAvailability_overlap_iff Fixtures.envStandup (jsDateUTC 2026 0 20 11 0) 30
     (some "stored-token") [Fixtures.standup] (by decide) (by decide),
   by decide, by decide⟩

/-- Claim C2: when the availability check reports the slot unavailable,
`bookMeeting` returns `success:false` with the error
`Time slot not available. Conflicts with: <comma-joined conflict titles>`
and the calendar provider observes zero event-create invocations. -/
theorem bookMeeting_unavailable_no_create
    (env : CalendarService.Env) (leadInfo : CalendarService.LeadInfo)
    (meetingDetails : CalendarService.MeetingDetails) (r : CalendarService.AvailabilityResult)
    (hav : (CalendarService.checkAvailability env meetingDetails.scheduledAt
              (jsOrNum meetingDetails.durationMinutes 30)).1 = .ok r)
    (hun : r.available = false) :
    (CalendarService.bookMeeting env leadInfo meetingDetails).1 =
      { success := false, calendarEventId := none,
        error := some ("Time slot not available. Conflicts with: " ++
          joinWith ", " (r.conflicts.map (fun c => c.title))) } ∧
    ((CalendarService.bookMeeting env leadInfo meetingDetails).2).createCalls = 0 := by
  unfold CalendarService.bookMeeting
  dsimp only
  simp only [hav]
  simp only [hun, Bool.not_false, if_true]
  exact ⟨trivial, checkAvailability_createCalls env meetingDetails.scheduledAt _⟩

/-- Witness for C2: booking the slot `[10:30, 11:30)` against a calendar
holding the `Standup` event fails with the joined conflict titles and no
create call. -/
theorem bookMeeting_unavailable_no_create_witness :
    ((CalendarService.checkAvailability Fixtures.envStandup
        Fixtures.meetingOverlap.scheduledAt
        (jsOrNum Fixtures.meetingOverlap.durationMinutes 30)).1 =
      .ok ⟨false, [Fixtures.standup]⟩ ∧
     (CalendarService.AvailabilityResult.mk false [Fixtures.standup]).available = false) ∧
    ((CalendarService.bookMeeting Fixtures.envStandup Fixtures.lead Fixtures.meetingOverlap).1 =
      { success := false, calendarEventId := none,
        error := some ("Time slot not available. Conflicts with: " ++
          joinWith ", " ([Fixtures.standup].map (fun c => c.title))) } ∧
     ((CalendarService.bookMeeting Fixtures.envStandup Fixtures.lead
        Fixtures.meetingOverlap).2).createCalls = 0) :=
  ⟨⟨by decide, by decide⟩,
   bookMeeting_unavailable_no_create Fixtures.envStandup Fixtures.lead Fixtures.meetingOverlap
     ⟨false, [Fixtures.standup]⟩ (by decide) (by decide)⟩

/-- Claim C3: an absent calendar integration makes `checkAvailability`
fail open (`available:true, conflicts:[]`) while `bookMeeting` for the
same user fails closed with an error mentioning that the calendar is not
connected; any availability failure whose message does not mention
`not connected` — a token failure or a provider event-list failure —
propagates as an error instead of a fail-open result. -/
theorem calendar_not_connected_failOpen_failClosed
    (env envTok envList : CalendarService.Env) (t d t' d' t'' d'' : Int)
    (lead : CalendarService.LeadInfo) (details : CalendarService.MeetingDetails)
    (e e'' : String) (a'' : Option String)
    (hnone : env.integration = none)
    (herr : (CalendarService.getValidAccessToken envTok).1 = .error e)
    (hnc : strIncludes e "not connected" = false)
    (htok : (CalendarService.getValidAccessToken envList).1 = .ok a'')
    (hlist : CalendarService.getGoogleCalendarEvents envList = .error e'')
    (hncl : strIncludes e'' "not connected" = false) :
    (CalendarService.checkAvailability env t d).1 = .ok ⟨true, []⟩ ∧
    ((CalendarService.bookMeeting env lead details).1.success = false ∧
      (CalendarService.bookMeeting env lead details).1.error =
        some "Google Calendar not connected. Please connect your calendar in Integrations." ∧
      strIncludes "Google Calendar not connected. Please connect your calendar in Integrations."
        "not connected" = true) ∧
    (CalendarService.checkAvailability envTok t' d').1 = .error e ∧
    (CalendarService.checkAvailability envList t'' d'').1 = .error e'' := by
  have hga : (CalendarService.getValidAccessToken env).1 =
      .error "Google Calendar not connected. Please connect your calendar in Integrations." := by
    unfold CalendarService.getValidAccessToken
    rw [hnone]
  have hca : ∀ a b : Int, (CalendarService.checkAvailability env a b).1 = .ok ⟨true, []⟩ := by
    intro a b
    unfold CalendarService.checkAvailability
    dsimp only
    simp only [hga]
    rw [if_pos]
    decide
  refine ⟨hca t d, ?_, ?_, ?_⟩
  · unfold CalendarService.bookMeeting
    dsimp only
    simp only [hca]
    simp only [hga]
    refine ⟨rfl, ?_, by decide⟩
    simp
    rfl
  · unfold CalendarService.checkAvailability
    dsimp only
    simp only [herr, hnc]
    simp
  · unfold CalendarService.checkAvailability
    dsimp only
    simp only [htok, hlist, hncl]
    simp

/-- Witness for C3: a user with no integration record fails open on the
availability check and fails closed on booking; an expiring integration
with no refresh token and a failing event-list fetch each propagate their
errors. -/
theorem calendar_not_connected_failOpen_failClosed_witness :
    (Fixtures.envNoIntegration.integration = none ∧
     (CalendarService.getValidAccessToken Fixtures.envUnrefreshable).1 =
       .error "No refresh token available. Please reconnect your calendar." ∧
     strIncludes "No refresh token available. Please reconnect your calendar."
       "not connected" = false ∧
     (CalendarService.getValidAccessToken Fixtures.envListFail).1 = .ok (some "stored-token") ∧
     CalendarService.getGoogleCalendarEvents Fixtures.envListFail =
       .error "Failed to fetch Google Calendar events: backend unavailable" ∧
     strIncludes "Failed to fetch Google Calendar events: backend unavailable"
       "not connected" = false) ∧
    ((CalendarService.checkAvailability Fixtures.envNoIntegration
        (jsDateUTC 2026 0 20 14 0) 30).1 = .ok ⟨true, []⟩ ∧
     ((CalendarService.bookMeeting Fixtures.envNoIntegration Fixtures.lead
         Fixtures.meeting).1.success = false ∧
       (CalendarService.bookMeeting Fixtures.envNoIntegration Fixtures.lead
         Fixtures.meeting).1.error =
         some "Google Calendar not connected. Please connect your calendar in Integrations." ∧
       strIncludes "Google Calendar not connected. Please connect your calendar in Integrations."
         "not connected" = true) ∧
     (CalendarService.checkAvailability Fixtures.envUnrefreshable
       (jsDateUTC 2026 0 20 14 0) 30).1 =
       .error "No refresh token available. Please reconnect your calendar." ∧
     (CalendarService.checkAvailability Fixtures.envListFail
       (jsDateUTC 2026 0 20 14 0) 30).1 =
       .error "Failed to fetch Google Calendar events: backend unavailable") :=
  ⟨⟨by decide, by decide, by decide, by decide, by decide, by decide⟩,
   calendar_not_connected_failOpen_failClosed Fixtures.envNoIntegration
     Fixtures.envUnrefreshable Fixtures.envListFail
     (jsDateUTC 2026 0 20 14 0) 30 (jsDateUTC 2026 0 20 14 0) 30
     (jsDateUTC 2026 0 20 14 0) 30 Fixtures.lead Fixtures.meeting
     "No refresh token available. Please reconnect your calendar."
     "Failed to fetch Google Calendar events: backend unavailable"
     (some "stored-token")
     (by decide) (by decide) (by decide) (by decide) (by decide) (by decide)⟩

/-- Claim C6: an integration whose access token is present and whose
expiry lies more than 5 minutes in the future yields the stored token
with no token-endpoint fetch and no store write; an integration whose
expiry is within the 5-minute threshold (or past) with no refresh token
fails instead of returning a token, again with no fetch and no write. -/
theorem getValidAccessToken_hot_path_and_unrefreshable
    (env₁ env₂ : CalendarService.Env) (i₁ i₂ : Integration) (x₁ x₂ : Int)
    (h1 : env₁.integration = some i₁) (h2 : truthyStr i₁.accessToken = true)
    (h3 : i₁.expiresAt = some x₁) (h4 : x₁ > env₁.now + 5 * 60 * 1000)
    (h5 : env₂.integration = some i₂) (h6 : truthyStr i₂.accessToken = true)
    (h7 : i₂.expiresAt = some x₂) (h8 : x₂ < env₂.now + 5 * 60 * 1000)
    (h9 : truthyStr i₂.refreshToken = false) :
    CalendarService.getValidAccessToken env₁ =
      (.ok i₁.accessToken, CalendarService.Effects.empty) ∧
    CalendarService.getValidAccessToken env₂ =
      (.error "No refresh token available. Please reconnect your calendar.",
       CalendarService.Effects.empty) := by
  constructor
  · unfold CalendarService.getValidAccessToken
    rw [h1]
    dsimp only
    simp only [h2, Bool.not_true, Bool.false_eq_true, if_false]
    rw [h3]
    simp only [jsDateLt, decide_eq_true_eq]
    rw [if_neg (by omega)]
  · unfold CalendarService.getValidAccessToken
    rw [h5]
    dsimp only
    simp only [h6, Bool.not_true, Bool.false_eq_true, if_false]
    rw [h7]
    simp only [jsDateLt, decide_eq_true_eq]
    rw [if_pos (by omega)]
    simp only [h9, Bool.not_false, if_true]

/-- Witness for C6: the healthy fixture returns its stored token with
empty effects; the expiring fixture without a refresh token fails. -/
theorem getValidAccessToken_hot_path_and_unrefreshable_witness :
    (Fixtures.envFree.integration = some Fixtures.integOK ∧
     truthyStr Fixtures.integOK.accessToken = true ∧
     Fixtures.integOK.expiresAt = some 99999999999999 ∧
     (99999999999999 : Int) > Fixtures.envFree.now + 5 * 60 * 1000 ∧
     Fixtures.envUnrefreshable.integration = some Fixtures.integUnrefreshable ∧
     truthyStr Fixtures.integUnrefreshable.accessToken = true ∧
     Fixtures.integUnrefreshable.expiresAt = some 1768900000001 ∧
     (1768900000001 : Int) < Fixtures.envUnrefreshable.now + 5 * 60 * 1000 ∧
     truthyStr Fixtures.integUnrefreshable.refreshToken = false) ∧
    (CalendarService.getValidAccessToken Fixtures.envFree =
      (.ok Fixtures.integOK.accessToken, CalendarService.Effects.empty) ∧
     CalendarService.getValidAccessToken Fixtures.envUnrefreshable =
      (.error "No refresh token available. Please reconnect your calendar.",
       CalendarService.Effects.empty)) :=
  ⟨⟨by decide, by decide, by decide, by decide, by decide, by decide, by decide,
    by decide, by decide⟩,
   getValidAccessToken_hot_path_and_unrefreshable Fixtures.envFree Fixtures.envUnrefreshable
     Fixtures.integOK Fixtures.integUnrefreshable 99999999999999 1768900000001
     (by decide) (by decide) (by decide) (by decide) (by decide) (by decide)
     (by decide) (by decide) (by decide)⟩

/-- Claim C7: a date string containing a dash is parsed as `YYYY-MM-DD`;
one containing a slash (and no dash) is split into three numeric
components and read as `DD/MM/YYYY` when the first component exceeds 12
and as `MM/DD/YYYY` otherwise, so `03/04/2026` resolves to month 3 and
day 4 while `25/04/2026` resolves to day 25 and month 4.  Result triples
are `(year, month, day)`. -/
theorem parseDateComponents_slash_heuristic (s : String)
    (hd : charIn '-' s = false) (hs : charIn '/' s = true) :
    (WebhookHandler.parseDateComponents s =
      (if jsGtNum (getNum ((jsSplit s '/').map jsNumber) 0) 12 then
         .ok (getNum ((jsSplit s '/').map jsNumber) 2,
              getNum ((jsSplit s '/').map jsNumber) 1,
              getNum ((jsSplit s '/').map jsNumber) 0)
       else
         .ok (getNum ((jsSplit s '/').map jsNumber) 2,
              getNum ((jsSplit s '/').map jsNumber) 0,
              getNum ((jsSplit s '/').map jsNumber) 1))) ∧
    (∀ s', charIn '-' s' = true →
      WebhookHandler.parseDateComponents s' =
        .ok (getNum ((jsSplit s' '-').map jsNumber) 0,
             getNum ((jsSplit s' '-').map jsNumber) 1,
             getNum ((jsSplit s' '-').map jsNumber) 2)) ∧
    WebhookHandler.parseDateComponents "03/04/2026" = .ok (some 2026, some 3, some 4) ∧
    WebhookHandler.parseDateComponents "25/04/2026" = .ok (some 2026, some 4, some 25) := by
  refine ⟨?_, ?_, by decide, by decide⟩
  · unfold WebhookHandler.parseDateComponents
    simp only [hd, hs, Bool.false_eq_true, if_false, if_true]
  · intro s' hd'
    unfold WebhookHandler.parseDateComponents
    simp only [hd', if_true]

/-- Witness for C7 at the claim's day-first example `25/04/2026`. -/
theorem parseDateComponents_slash_heuristic_witness :
    (charIn '-' "25/04/2026" = false ∧ charIn '/' "25/04/2026" = true) ∧
    (WebhookHandler.parseDateComponents "03/04/2026" = .ok (some 2026, some 3, some 4) ∧
     WebhookHandler.parseDateComponents "25/04/2026" = .ok (some 2026, some 4, some 25)) :=
  ⟨⟨by decide, by decide⟩,
   ((parseDateComponents_slash_heuristic "25/04/2026" (by decide) (by decide)).2).2⟩

/-- Claim C9, counterexample: a provider event-create failure whose body
text is `insufficientPermissions for tok_user_42` flows verbatim into the
user-facing outcome string of `handleBookMeeting`, so the claim that
failure outcomes never contain provider error text is false on the code. -/
theorem handleBookMeeting_leaks_provider_error :
    (WebhookHandler.handleBookMeeting Fixtures.envCreateFail Fixtures.bookParams none).result =
      "I wasn\x27t able to book that time. Failed to create Google Calendar event: insufficientPermissions for tok_user_42" ∧
    strIncludes
      (WebhookHandler.handleBookMeeting Fixtures.envCreateFail Fixtures.bookParams none).result
      "insufficientPermissions for tok_user_42" = true := by
  decide

/-- Claim C9 as amended: availability-check failures do surface the fixed
generic catch message with no provider text, but the booking handler
interpolates the booking error string — which carries provider error text
for query, create and refresh failures during booking — verbatim into its
user-facing outcome. -/
theorem availability_errors_generic_booking_embeds_error
    (env env' : CalendarService.Env) (p : WebhookHandler.CheckParams)
    (bp : WebhookHandler.BookParams) (n : Option String) (t t' : Int) (e : String)
    (h1 : truthyStr p.date = true) (h2 : truthyStr p.time = true)
    (h3 : WebhookHandler.parseDateTime (p.date.getD "") (p.time.getD "")
            (p.timezone.getD "UTC") = .ok (some t))
    (h4 : (CalendarService.checkAvailability env t (p.duration_minutes.getD 30)).1 = .error e)
    (h5 : truthyStr bp.date = true) (h6 : truthyStr bp.time = true)
    (h7 : truthyStr bp.leadName = true) (h8 : truthyStr bp.leadEmail = true)
    (h9 : WebhookHandler.parseDateTime (bp.date.getD "") (bp.time.getD "")
            (bp.timezone.getD "UTC") = .ok (some t'))
    (h10 : (CalendarService.bookMeeting env'
             ⟨bp.leadEmail.getD "", bp.leadName.getD "", jsOrOpt bp.leadPhone n⟩
             ⟨jsOrStr bp.meetingTitle ("Meeting with " ++ bp.leadName.getD ""),
              some (jsOrStr bp.meetingNotes "Scheduled via AI call"),
              t', some (bp.duration.getD 30), bp.timezone.getD "UTC"⟩).1.success = false) :
    WebhookHandler.handleCheckAvailability env p = WebhookHandler.checkCatchResult ∧
    (WebhookHandler.handleBookMeeting env' bp n).result =
      "I wasn\x27t able to book that time. " ++
        jsOrStr (CalendarService.bookMeeting env'
             ⟨bp.leadEmail.getD "", bp.leadName.getD "", jsOrOpt bp.leadPhone n⟩
             ⟨jsOrStr bp.meetingTitle ("Meeting with " ++ bp.leadName.getD ""),
              some (jsOrStr bp.meetingNotes "Scheduled via AI call"),
              t', some (bp.duration.getD 30), bp.timezone.getD "UTC"⟩).1.error
          "Please try a different time." := by
  constructor
  · unfold WebhookHandler.handleCheckAvailability
    simp only [h1, h2, Bool.not_true, Bool.or_self, Bool.false_eq_true, if_false]
    rw [h3]
    dsimp only
    rw [h4]
  · unfold WebhookHandler.handleBookMeeting
    simp only [h5, h6, h7, h8, Bool.not_true, Bool.or_self, Bool.false_eq_true, if_false]
    rw [h9]
    dsimp only
    simp only [h10, Bool.false_eq_true, if_false]

/-- Witness for the amended C9: a failing event-list fetch yields the
generic catch message from the availability handler, while a failing
event-create fetch embeds the provider error text in the booking
handler's outcome. -/
theorem availability_errors_generic_booking_embeds_error_witness :
    (truthyStr Fixtures.checkParams.date = true ∧
     truthyStr Fixtures.checkParams.time = true ∧
     WebhookHandler.parseDateTime (Fixtures.checkParams.date.getD "")
       (Fixtures.checkParams.time.getD "") (Fixtures.checkParams.timezone.getD "UTC") =
       .ok (some (jsDateUTC 2026 0 20 14 0)) ∧
     (CalendarService.checkAvailability Fixtures.envListFail (jsDateUTC 2026 0 20 14 0)
        (Fixtures.checkParams.duration_minutes.getD 30)).1 =
       .error "Failed to fetch Google Calendar events: backend unavailable") ∧
    (WebhookHandler.handleCheckAvailability Fixtures.envListFail Fixtures.checkParams =
       WebhookHandler.checkCatchResult ∧
     (WebhookHandler.handleBookMeeting Fixtures.envCreateFail Fixtures.bookParams none).result =
       "I wasn\x27t able to book that time. " ++
         jsOrStr (CalendarService.bookMeeting Fixtures.envCreateFail
             ⟨Fixtures.bookParams.leadEmail.getD "", Fixtures.bookParams.leadName.getD "",
              jsOrOpt Fixtures.bookParams.leadPhone none⟩
             ⟨jsOrStr Fixtures.bookParams.meetingTitle
                ("Meeting with " ++ Fixtures.bookParams.leadName.getD ""),
              some (jsOrStr Fixtures.bookParams.meetingNotes "Scheduled via AI call"),
              jsDateUTC 2026 0 20 14 0, some (Fixtures.bookParams.duration.getD 30),
              Fixtures.bookParams.timezone.getD "UTC"⟩).1.error
           "Please try a different time.") :=
  ⟨⟨by decide, by decide, by decide, by decide⟩,
   availability_errors_generic_booking_embeds_error Fixtures.envListFail Fixtures.envCreateFail
     Fixtures.checkParams Fixtures.bookParams none
     (jsDateUTC 2026 0 20 14 0) (jsDateUTC 2026 0 20 14 0)
     "Failed to fetch Google Calendar events: backend unavailable"
     (by decide) (by decide) (by decide) (by decide) (by decide) (by decide)
     (by decide) (by decide) (by decide) (by decide)⟩

/-- Claim C10: a successful token refresh performs exactly one store
update whose `$set` document holds only `accessToken`, `expiresAt` and
`updatedAt`; applying it to any stored record leaves `refreshToken`,
`userId`, `provider` and `createdAt` unchanged. -/
theorem refreshAccessToken_sets_only_token_fields
    (env : CalendarService.Env) (tokens : TokenJson) (rec : Integration)
    (hok : env.tokenResponse.ok = true)
    (hbody : env.tokenResponse.body = .ok tokens) :
    CalendarService.refreshAccessToken env =
      (.ok tokens.access_token,
       ⟨[⟨tokens.access_token, tokens.expires_in.map (fun s => env.now + s * 1000), env.now⟩],
        1, 0⟩) ∧
    ∀ u : CalendarService.RefreshSet,
      (CalendarService.applyRefreshSet rec u).refreshToken = rec.refreshToken ∧
      (CalendarService.applyRefreshSet rec u).userId = rec.userId ∧
      (CalendarService.applyRefreshSet rec u).provider = rec.provider ∧
      (CalendarService.applyRefreshSet rec u).createdAt = rec.createdAt ∧
      (CalendarService.applyRefreshSet rec u).accessToken = u.accessToken ∧
      (CalendarService.applyRefreshSet rec u).expiresAt = u.expiresAt ∧
      (CalendarService.applyRefreshSet rec u).updatedAt = u.updatedAt := by
  constructor
  · unfold CalendarService.refreshAccessToken
    simp only [hok, Bool.not_true, Bool.false_eq_true, if_false, hbody]
  · intro u
    exact ⟨rfl, rfl, rfl, rfl, rfl, rfl, rfl⟩

/-- Witness for C10 at the healthy fixture token response. -/
theorem refreshAccessToken_sets_only_token_fields_witness :
    (Fixtures.envFree.tokenResponse.ok = true ∧
     Fixtures.envFree.tokenResponse.body = .ok ⟨some "new-token", some 3600⟩) ∧
    (CalendarService.refreshAccessToken Fixtures.envFree =
      (.ok (some "new-token"),
       ⟨[⟨some "new-token", some (Fixtures.envFree.now + 3600 * 1000), Fixtures.envFree.now⟩],
        1, 0⟩) ∧
     ∀ u : CalendarService.RefreshSet,
       (CalendarService.applyRefreshSet Fixtures.integOK u).refreshToken =
         Fixtures.integOK.refreshToken ∧
       (CalendarService.applyRefreshSet Fixtures.integOK u).userId =
         Fixtures.integOK.userId ∧
       (CalendarService.applyRefreshSet Fixtures.integOK u).provider =
         Fixtures.integOK.provider ∧
       (CalendarService.applyRefreshSet Fixtures.integOK u).createdAt =
         Fixtures.integOK.createdAt ∧
       (CalendarService.applyRefreshSet Fixtures.integOK u).accessToken = u.accessToken ∧
       (CalendarService.applyRefreshSet Fixtures.integOK u).expiresAt = u.expiresAt ∧
       (CalendarService.applyRefreshSet Fixtures.integOK u).updatedAt = u.updatedAt) :=
  ⟨⟨by decide, by decide⟩,
   refreshAccessToken_sets_only_token_fields Fixtures.envFree ⟨some "new-token", some 3600⟩
     Fixtures.integOK (by decide) (by decide)⟩
